import Mathlib

/-!
Shallow embedding of the Siemens AI Document Migration pipeline
(`schema.py`, `migrator.py`, and the credential guard of `app.py`).

Conventions of the embedding:
* Python strings are Lean `String`s; character classes (`\w`, `\s`) follow
  the Python definitions restricted to ASCII, which covers every character
  class test the program performs on the inputs considered here.
* Machine integers do not overflow anywhere in the program; `Int` is used
  for the pydantic `int` field.
* Filesystem and network effects are passed in explicitly: the outcome of
  `path.read_text` and the per-page results of `page.extract_text()` are
  parameters of `read_file`, and the extraction capability is a function
  parameter of `extract_sop`.
-/

/-- The fields of `SiemensSOP` (schema.py, lines 5-40) as handed to pydantic
validation, before any constraint has been checked. -/
structure SOPCandidate where
  title : String
  document_id : String
  version : String
  department : String
  safety_warnings : List String
  equipment : List String
  steps : List String
  confidence_score : Int
deriving DecidableEq

/-- A validated `SiemensSOP` record (schema.py).  pydantic enforces only
presence of every field and `confidence_score: ge=1, le=10`; no other
field carries a constraint, so the validated record holds the fields of the candidate unchanged. -/
structure SiemensSOP where
  title : String
  document_id : String
  version : String
  department : String
  safety_warnings : List String
  equipment : List String
  steps : List String
  confidence_score : Int
deriving DecidableEq

/-- pydantic validation of `SiemensSOP` (schema.py): every field must be
present (guaranteed by the `SOPCandidate` type) and `confidence_score`
must satisfy `ge=1, le=10` (schema.py lines 32-34); values are passed
through unchanged, never clamped. -/
def validate_sop (c : SOPCandidate) : Option SiemensSOP :=
  if 1 ≤ c.confidence_score ∧ c.confidence_score ≤ 10 then
    some ⟨c.title, c.document_id, c.version, c.department,
          c.safety_warnings, c.equipment, c.steps, c.confidence_score⟩
  else
    none

/-- A record is valid when it satisfies the only range constraint of the schema
(the shape constraints are carried by the type). -/
def ValidRecord (r : SiemensSOP) : Prop :=
  1 ≤ r.confidence_score ∧ r.confidence_score ≤ 10

instance (r : SiemensSOP) : Decidable (ValidRecord r) := by
  unfold ValidRecord; infer_instance

/-- Python `re` word character `\w` (ASCII range): `[a-zA-Z0-9_]`. -/
def pyIsWordChar (c : Char) : Bool :=
  c.isAlphanum || c = '_'

/-- Python `re` whitespace `\s` / `str.strip` whitespace (ASCII range):
space, tab, newline, vertical tab, form feed, carriage return. -/
def pyIsSpaceChar (c : Char) : Bool :=
  c = ' ' || c = '\t' || c = '\n' || c = '\x0b' || c = '\x0c' || c = '\r'

/-- Embedding of `re.sub(r"[^\w\s-]", "", title)` (migrator.py line 195): delete every
character that is not a word character, whitespace, or a hyphen. -/
def strip_nonword (s : String) : String :=
  String.mk (s.toList.filter (fun c => pyIsWordChar c || pyIsSpaceChar c || c = '-'))

/-- Python `str.strip()`: drop leading and trailing whitespace. -/
def pyStrip (s : String) : String :=
  String.mk (((s.toList.dropWhile pyIsSpaceChar).reverse.dropWhile pyIsSpaceChar).reverse)

/-- Python `str.replace(" ", "_")`: every space character (only the space character,
not other whitespace) becomes an underscore; runs are not collapsed. -/
def replaceSpaces (s : String) : String :=
  String.mk (s.toList.map (fun c => if c = ' ' then '_' else c))

/-- Python slicing `s[:n]`: keep the first `n` characters. -/
def pyTake (n : Nat) (s : String) : String :=
  String.mk (s.toList.take n)

/-- Embedding of `safe_title` (migrator.py line 195):
`re.sub(r"[^\w\s-]", "", data.title).strip().replace(" ", "_")[:50]`. -/
def safe_title (title : String) : String :=
  pyTake 50 (replaceSpaces (pyStrip (strip_nonword title)))

/-- Embedding of `filename = "\x7bsafe_title\x7d_v\x7bdata.version\x7d.docx"` (migrator.py line 196). -/
def docx_filename (title version : String) : String :=
  safe_title title ++ "_v" ++ version ++ ".docx"

/-- Embedding of `OUTPUT_DIR` (migrator.py line 28),
modelled as the path string of that directory. -/
def OUTPUT_DIR : String := "output_docs"

/-- Embedding of `filepath = OUTPUT_DIR / filename` (migrator.py line 197); the filename is
always relative (it starts with the sanitized title and `_v`), so the pathlib
join is plain concatenation with a separator. -/
def output_filepath (data : SiemensSOP) : String :=
  OUTPUT_DIR ++ "/" ++ docx_filename data.title data.version

/-- Collapse each maximal run of whitespace to a single underscore
(used only by `spec_safe_title` below). -/
def collapseWsRuns : List Char → List Char
  | [] => []
  | [c] => [if pyIsSpaceChar c then '_' else c]
  | c :: d :: rest =>
    if pyIsSpaceChar c && pyIsSpaceChar d then collapseWsRuns (d :: rest)
    else (if pyIsSpaceChar c then '_' else c) :: collapseWsRuns (d :: rest)

/-- The filename sanitization as the SPEC words it (for comparison with
`safe_title`): "strip all characters that are not alphanumeric, whitespace,
or a hyphen from the title, collapse internal whitespace to single
underscores, truncate to a bounded length (50 characters)". -/
def spec_safe_title (title : String) : String :=
  pyTake 50 (String.mk (collapseWsRuns
    (pyStrip (String.mk (title.toList.filter
      (fun c => c.isAlphanum || pyIsSpaceChar c || c = '-')))).toList))

/-- The filename derivation as the SPEC words it: sanitized title, then the
version tag. -/
def spec_filename (title version : String) : String :=
  spec_safe_title title ++ "_v" ++ version ++ ".docx"

/-- Index of the last occurrence of `c` in `cs`, if any
(Python `str.rfind`, restricted to found/not-found). -/
def lastIndexOf (c : Char) (cs : List Char) : Option Nat :=
  (cs.reverse.findIdx? (fun x => x = c)).map (fun j => cs.length - 1 - j)

/-- Split a character list on a separator character (the groups between
separators, in order; never empty). -/
def splitOnChar (c : Char) : List Char → List (List Char)
  | [] => [[]]
  | x :: rest =>
    match splitOnChar c rest with
    | [] => [[x]]
    | g :: gs => if x = c then [] :: g :: gs else (x :: g) :: gs

/-- Embedding of `pathlib.PurePath.name`: the final path component. -/
def path_name (p : String) : String :=
  String.mk ((splitOnChar '/' p.toList).getLastD [])

/-- Embedding of `pathlib.PurePath.suffix`: the extension of the final path component,
empty when the name has no dot, starts with a dot, or ends with a dot. -/
def path_suffix (p : String) : String :=
  let name := (path_name p).toList
  match lastIndexOf '.' name with
  | some i => if 0 < i ∧ i < name.length - 1 then String.mk (name.drop i) else ""
  | none => ""

/-- Python `str.lower()` (as applied to an ASCII extension). -/
def pyLower (s : String) : String :=
  String.mk (s.toList.map Char.toLower)

/-- The error kinds a read can produce in the error taxonomy of the spec.
`decodeError` models a `UnicodeDecodeError` from `path.read_text`;
`unsupportedFormat` is declared because the spec names it — `read_file`
(migrator.py lines 61-68) never constructs it. -/
inductive ReadError where
  | decodeError
  | unsupportedFormat
deriving DecidableEq

/-- Embedding of `read_file` (migrator.py lines 61-68).  The filesystem is passed in
explicitly: `pdfPages` is the list of `page.extract_text()` results
(`none` for a page yielding no text) that `PdfReader` would produce for
this path, and `textRead` is the outcome `path.read_text(encoding="utf-8")`
would produce.  Dispatch is solely on the lowercased path suffix. -/
def read_file (file_path : String) (pdfPages : List (Option String))
    (textRead : Except ReadError String) : Except ReadError String :=
  if pyLower (path_suffix file_path) = ".pdf" then
    Except.ok (String.intercalate "\n" (pdfPages.map (fun pg => pg.getD "")))
  else
    textRead

/-- Text of `EXTRACTION_PROMPT` (migrator.py lines 31-55) before the
placeholder.  Backslash line continuations of the Python source are spliced
(keeping the leading spaces of the continuation lines). -/
def promptHead : String :=
  "You are a senior Quality Assurance Document Specialist at Siemens Digital Industries.\n\nYour task is to read the following messy, unstructured Standard Operating Procedure (SOP) and extract ALL relevant information into a clean, standardized JSON format.\n\nRules:\n1. **title**: Create a professional, standardized title for this procedure.\n2. **document_id**: Generate a plausible document ID in the format \"SOP-YYYY-NNN\".\n3. **version**: Assign version \"2.0\" (this is the first standardized migration).\n4. **department**: Infer the responsible department from context.\n5. **safety_warnings**: Extract EVERY safety warning, caution, danger notice, PPE requirement,    and EHS reference. Do NOT miss any. Rewrite them clearly and professionally.\n6. **equipment**: List ALL tools, instruments, and equipment mentioned. Standardize names.\n7. **steps**: Extract the procedural steps in logical order. Clean up language,    remove informal tone, and write each step as a clear, actionable instruction.\n8. **confidence_score**: Rate 1-10 how confident you are that you captured ALL information    from the source document. Be honest — if the source was very messy, a score of 7-8 is fine.\n\nSource Document:\n---\n"

/-- Text of `EXTRACTION_PROMPT` after the placeholder. -/
def promptTail : String :=
  "\n---\n\nExtract the data now. Return ONLY the structured JSON."

/-- Embedding of `EXTRACTION_PROMPT` (migrator.py lines 31-55), verbatim. -/
def EXTRACTION_PROMPT : String :=
  promptHead ++ "{document_text}" ++ promptTail

/-- A segment of an f-string template as `ChatPromptTemplate` parses it:
either literal text or a substitution variable. -/
inductive TemplatePart where
  | lit : String → TemplatePart
  | var : String → TemplatePart
deriving DecidableEq

/-- Render a parsed template back to its source text (a variable renders as
the brace-delimited placeholder). -/
def fstringOfParts : List TemplatePart → String
  | [] => ""
  | TemplatePart.lit s :: rest => s ++ fstringOfParts rest
  | TemplatePart.var v :: rest => "\x7b" ++ v ++ "\x7d" ++ fstringOfParts rest

/-- Format a parsed template, substituting `value` for every variable
(migrator.py line 84 invokes the chain with the single variable
`document_text`). -/
def formatParts (value : String) : List TemplatePart → String
  | [] => ""
  | TemplatePart.lit s :: rest => s ++ formatParts value rest
  | TemplatePart.var _ :: rest => value ++ formatParts value rest

/-- Is this template part a substitution variable? -/
def isVarPart : TemplatePart → Bool
  | TemplatePart.var _ => true
  | TemplatePart.lit _ => false

/-- Parse of `EXTRACTION_PROMPT` as `ChatPromptTemplate` performs it (migrator.py
lines 79-81): one literal head, the `document_text` variable, one literal
tail. -/
def promptParts : List TemplatePart :=
  [TemplatePart.lit promptHead, TemplatePart.var "document_text", TemplatePart.lit promptTail]

/-- The instruction `chain.invoke({"document_text": text})` sends to the
extraction capability (migrator.py lines 79-84): the parsed
`EXTRACTION_PROMPT` with the raw document text substituted. -/
def format_extraction_prompt (text : String) : String :=
  formatParts text promptParts

/-- The error kinds `extract_sop` can surface in the error taxonomy of the spec. -/
inductive ExtractionError where
  | missingCredential
  | capabilityFailure (message : String)
  | invalidResponse
deriving DecidableEq

/-- Embedding of `extract_sop` (migrator.py lines 71-85).  The external extraction
capability is a function parameter mapping the formatted instruction to
either a transport failure or a candidate record; `apiKey` is the
`OPENAI_API_KEY` configuration (environment or override), `none` when no
credential is configured.

Modelled from the spec: the external client (`ChatOpenAI`, migrator.py
line 76) is constructed before any request is sent, and constructing it
without a usable API key fails; per the spec this surfaces as an
`ExtractionError` for a missing credential, raised before the capability
is ever invoked.  The structured output of the capability is validated against
the schema before being returned (`with_structured_output(SiemensSOP)`,
migrator.py line 77). -/
def extract_sop (apiKey : Option String) (text : String)
    (capability : String → Except String SOPCandidate) :
    Except ExtractionError SiemensSOP :=
  match apiKey with
  | none => Except.error ExtractionError.missingCredential
  | some _ =>
    match capability (format_extraction_prompt text) with
    | Except.error e => Except.error (ExtractionError.capabilityFailure e)
    | Except.ok cand =>
      match validate_sop cand with
      | some r => Except.ok r
      | none => Except.error ExtractionError.invalidResponse

/-- The credential test of the Extract & Migrate handler of the app
(app.py lines 306-307): `api_key = os.environ.get("OPENAI_API_KEY", "")`
then `if not api_key or api_key == "your-api-key-here"`. -/
def usable_api_key (apiKey : String) : Bool :=
  !(apiKey == "" || apiKey == "your-api-key-here")

/-- What the Extract & Migrate click handler does (app.py lines 305-315):
with an unusable key it reports an error without invoking `extract_sop`;
otherwise it runs the extraction.  `apiKey` is the defaulted environment
lookup, so the missing-variable case is the empty string. -/
def app_extract_click (apiKey : String) (rawText : String)
    (capability : String → Except String SOPCandidate) :
    Except ExtractionError SiemensSOP :=
  if usable_api_key apiKey then
    extract_sop (some apiKey) rawText capability
  else
    Except.error ExtractionError.missingCredential

/-- One visible element of the generated Word document, in document order.
Styling-only detail (fonts, colors, alignment) is not observable here;
a `step` block renders its number as the bold run `"Step {i}:  "` followed
by the step text. -/
inductive Block where
  | heading : String → Block
  | subtitle : String → Block
  | spacer : Block
  | table : List (String × String) → Block
  | sectionHeader : String → Block
  | bullet : String → Block
  | step : Nat → String → Block
  | footer : String → Block
deriving DecidableEq

/-- Section header text of migrator.py line 151. -/
def safetyHeaderText : String := "⚠  Safety Warnings & Precautions"

/-- Section header text of migrator.py line 162. -/
def equipmentHeaderText : String := "🔧  Required Equipment"

/-- Section header text of migrator.py line 171. -/
def stepsHeaderText : String := "📋  Procedure Steps"

/-- Footer text of migrator.py lines 186-189. -/
def footerText : String :=
  "This document was auto-generated by the Siemens AI Document Migration System. Please review and approve before use."

/-- Embedding of `generate_word_doc` (migrator.py lines 107-200): the blocks of the document in
emission order, and the path the document is saved to.  Mirrors the source
statement by statement: heading, subtitle, spacer, metadata table, spacer,
safety section header, one bullet per safety warning, spacer, equipment
section header, one bullet per equipment item, spacer, steps section header,
one numbered step per entry of `steps` (`enumerate(data.steps, 1)`), spacer,
footer; then the save path is derived from `safe_title` and the version. -/
def generate_word_doc (data : SiemensSOP) : List Block × String :=
  ( [Block.heading "Siemens Digital Industries",
     Block.subtitle "Standard Operating Procedure",
     Block.spacer,
     Block.table [("Document Title", data.title), ("Document ID", data.document_id),
                  ("Version", data.version), ("Department", data.department)],
     Block.spacer,
     Block.sectionHeader safetyHeaderText]
    ++ data.safety_warnings.map Block.bullet
    ++ [Block.spacer, Block.sectionHeader equipmentHeaderText]
    ++ data.equipment.map Block.bullet
    ++ [Block.spacer, Block.sectionHeader stepsHeaderText]
    ++ (data.steps.enumFrom 1).map (fun p => Block.step p.1 p.2)
    ++ [Block.spacer, Block.footer footerText],
    output_filepath data )

/-- View of `generate_word_doc` as a state transformer on its argument: Python passes
the record by reference, and the function body (migrator.py lines 107-200)
contains no assignment to any field of `data`, so the record handed back to
the caller is the one passed in. -/
def render_step (data : SiemensSOP) : SiemensSOP × (List Block × String) :=
  (data, generate_word_doc data)

/-- pydantic model configuration of `SiemensSOP` (schema.py declares no
`model_config`, so `frozen` has its default value `False`). -/
def sop_model_frozen : Bool := false

/-- pydantic `BaseModel.__setattr__` semantics for `SiemensSOP.title`:
reassignment fails if and only if the model is frozen; otherwise the field
is updated in place. -/
def sop_set_title (s : SiemensSOP) (v : String) : Except String SiemensSOP :=
  if sop_model_frozen then Except.error "Instance is frozen"
  else Except.ok { s with title := v }

/-- Does this block render the given section header? -/
def is_section_header (h : String) : Block → Bool
  | Block.sectionHeader s => s == h
  | _ => false

/-- The text of a bullet block, if it is one. -/
def bulletText : Block → Option String
  | Block.bullet s => some s
  | _ => none

/-- Is this block a bulleted item? -/
def isBulletBlock : Block → Bool
  | Block.bullet _ => true
  | _ => false

/-- The bulleted items emitted directly beneath the given section header:
skip to the header, drop it, and collect the bullets that follow it. -/
def itemsUnder (h : String) (bs : List Block) : List String :=
  (((bs.dropWhile (fun b => !(is_section_header h b))).drop 1).takeWhile
    isBulletBlock).filterMap bulletText

/-- The number and text of a step block, if it is one. -/
def stepOf : Block → Option (Nat × String)
  | Block.step i s => some (i, s)
  | _ => none

/-- All numbered step entries of the document, in emission order. -/
def step_entries (bs : List Block) : List (Nat × String) :=
  bs.filterMap stepOf

deriving instance DecidableEq for Except

set_option maxRecDepth 100000

/-- Dropping while looking for a section header passes over any run of
bulleted items. -/
theorem dropWhile_not_header_bullets (h : String) (ws : List String) (rest : List Block) :
    ((ws.map Block.bullet) ++ rest).dropWhile (fun b => !(is_section_header h b))
      = rest.dropWhile (fun b => !(is_section_header h b)) := by
  induction ws with
  | nil => rfl
  | cons w ws ih => simp [List.dropWhile_cons, is_section_header, ih]

/-- Taking bulleted items stops at the spacer that closes a section. -/
theorem takeWhile_bullets_until_spacer (ws : List String) (rest : List Block) :
    ((ws.map Block.bullet) ++ Block.spacer :: rest).takeWhile isBulletBlock
      = ws.map Block.bullet := by
  induction ws with
  | nil => simp [List.takeWhile_cons, isBulletBlock]
  | cons w ws ih => simp [List.takeWhile_cons, isBulletBlock, ih]

/-- Reading the texts back off a run of bullet blocks recovers the texts. -/
theorem filterMap_bulletText_map (ws : List String) :
    ws.filterMap (bulletText ∘ Block.bullet) = ws := by
  induction ws with
  | nil => rfl
  | cons w ws ih => simp [List.filterMap_cons, bulletText, Function.comp, ih]

/-- Bullet runs contribute no numbered step entries. -/
theorem filterMap_stepOf_bullets (ws : List String) :
    ws.filterMap (stepOf ∘ Block.bullet) = [] := by
  induction ws with
  | nil => rfl
  | cons w ws ih => simp [List.filterMap_cons, stepOf, Function.comp, ih]

/-- The step entries of a rendered run of step blocks are the pairs themselves. -/
theorem filterMap_stepOf_steps (l : List (Nat × String)) :
    l.filterMap (stepOf ∘ fun p => Block.step p.1 p.2) = l := by
  induction l with
  | nil => rfl
  | cons p l ih => simp [List.filterMap_cons, stepOf, Function.comp, ih]

/-- Claim C1: for every valid record, `generate_word_doc` emits the Safety
Warnings, Equipment, and Procedure Steps section headers unconditionally
(also when the corresponding list is empty), renders every entry of
`safety_warnings` (and of `equipment`) verbatim as the bulleted items
directly beneath its header in input order, and emits exactly
`len(steps)` step entries numbered contiguously from 1 in input order. -/
theorem C1_render_sections (data : SiemensSOP) (_hvalid : ValidRecord data) :
    Block.sectionHeader safetyHeaderText ∈ (generate_word_doc data).1 ∧
    Block.sectionHeader equipmentHeaderText ∈ (generate_word_doc data).1 ∧
    Block.sectionHeader stepsHeaderText ∈ (generate_word_doc data).1 ∧
    itemsUnder safetyHeaderText (generate_word_doc data).1 = data.safety_warnings ∧
    itemsUnder equipmentHeaderText (generate_word_doc data).1 = data.equipment ∧
    step_entries (generate_word_doc data).1 = data.steps.enumFrom 1 ∧
    (step_entries (generate_word_doc data).1).map Prod.fst
      = List.range' 1 data.steps.length := by
  refine ⟨?_, ?_, ?_, ?_, ?_, ?_, ?_⟩
  · simp [generate_word_doc]
  · simp [generate_word_doc]
  · simp [generate_word_doc]
  · simp [generate_word_doc, itemsUnder, List.dropWhile_cons, is_section_header,
      safetyHeaderText, dropWhile_not_header_bullets, takeWhile_bullets_until_spacer,
      filterMap_bulletText_map]
  · simp [generate_word_doc, itemsUnder, List.dropWhile_cons, is_section_header,
      safetyHeaderText, equipmentHeaderText, dropWhile_not_header_bullets,
      takeWhile_bullets_until_spacer, filterMap_bulletText_map]
  · simp [generate_word_doc, step_entries, List.filterMap_append, filterMap_stepOf_bullets,
      filterMap_stepOf_steps, stepOf]
  · simp [generate_word_doc, step_entries, List.filterMap_append, filterMap_stepOf_bullets,
      filterMap_stepOf_steps, stepOf, List.enumFrom_map_fst]

/-- Witness for C1 at the end-to-end scenario record of the spec. -/
theorem C1_render_sections_w :
    itemsUnder safetyHeaderText (generate_word_doc ⟨"Valve Operation", "SOP-2024-001",
      "2.0", "Manufacturing", ["Wear gloves"], [], ["Open valve.", "Close valve."], 8⟩).1
      = ["Wear gloves"] ∧
    step_entries (generate_word_doc ⟨"Valve Operation", "SOP-2024-001",
      "2.0", "Manufacturing", ["Wear gloves"], [], ["Open valve.", "Close valve."], 8⟩).1
      = [(1, "Open valve."), (2, "Close valve.")] := by
  have h := C1_render_sections ⟨"Valve Operation", "SOP-2024-001", "2.0", "Manufacturing",
    ["Wear gloves"], [], ["Open valve.", "Close valve."], 8⟩ (by decide)
  exact ⟨h.2.2.2.1, h.2.2.2.2.2.1⟩

/-- Claim C2: schema validation succeeds exactly when the integer
`confidence_score` lies in `[1, 10]`, and an accepted record carries every
candidate field unchanged — in particular the score is never clamped. -/
theorem C2_confidence_range (c : SOPCandidate) :
    ((validate_sop c).isSome ↔ 1 ≤ c.confidence_score ∧ c.confidence_score ≤ 10) ∧
    (∀ r, validate_sop c = some r →
      r = ⟨c.title, c.document_id, c.version, c.department, c.safety_warnings,
           c.equipment, c.steps, c.confidence_score⟩) := by
  unfold validate_sop
  constructor
  · split <;> simp_all
  · intro r hr; split at hr <;> simp_all

/-- Witness for C2: score 7 validates; scores 0 and 11 are rejected. -/
theorem C2_confidence_range_w :
    (validate_sop ⟨"T", "SOP-2024-001", "2.0", "QA", [], [], [], 7⟩).isSome ∧
    ¬ (validate_sop ⟨"T", "SOP-2024-001", "2.0", "QA", [], [], [], 0⟩).isSome ∧
    ¬ (validate_sop ⟨"T", "SOP-2024-001", "2.0", "QA", [], [], [], 11⟩).isSome := by
  refine ⟨(C2_confidence_range _).1.mpr (by decide), ?_, ?_⟩
  · intro hs; exact absurd ((C2_confidence_range _).1.mp hs) (by decide)
  · intro hs; exact absurd ((C2_confidence_range _).1.mp hs) (by decide)

/-- Counterexample to C3: a candidate whose `title` and `department` are the
empty string and whose three lists each contain an empty entry passes schema
validation, so validation does not reject empty text. -/
theorem C3_counterexample :
    (⟨"", "SOP-2024-001", "2.0", "", [""], [""], [""], 5⟩ : SOPCandidate).title = "" ∧
    (⟨"", "SOP-2024-001", "2.0", "", [""], [""], [""], 5⟩ : SOPCandidate).department = "" ∧
    (validate_sop ⟨"", "SOP-2024-001", "2.0", "", [""], [""], [""], 5⟩).isSome := by
  decide

/-- Claim C3 amended: schema validation checks only field presence and the
confidence-score range; whether the text fields or list entries are empty
has no effect on acceptance, and any candidate with an in-range score
validates. -/
theorem C3_no_emptiness_check (c : SOPCandidate) :
    ((validate_sop c).isSome ↔
      (validate_sop ⟨"", c.document_id, c.version, "", [""], [""], [""],
        c.confidence_score⟩).isSome) ∧
    (1 ≤ c.confidence_score → c.confidence_score ≤ 10 → (validate_sop c).isSome) := by
  constructor
  · unfold validate_sop; split <;> simp_all
  · intro h1 h2; unfold validate_sop; split <;> simp_all

/-- Witness for C3 amended: a fully empty-texted candidate with score 5
validates. -/
theorem C3_no_emptiness_check_w :
    (validate_sop ⟨"", "x", "1", "", [], [], [], 5⟩).isSome :=
  (C3_no_emptiness_check ⟨"", "x", "1", "", [], [], [], 5⟩).2 (by decide) (by decide)

/-- Counterexample to C4: on the title `"a  b"` (two internal spaces) the
code maps each space to its own underscore, producing `a__b_v1.docx`,
while the sanitization the claim describes (collapse internal whitespace
runs to single underscores) produces `a_b_v1.docx`. -/
theorem C4_counterexample :
    docx_filename "a  b" "1" = "a__b_v1.docx" ∧
    spec_filename "a  b" "1" = "a_b_v1.docx" ∧
    docx_filename "a  b" "1" ≠ spec_filename "a  b" "1" := by
  decide

/-- The length of a string built from a character list is the length of the
list. -/
theorem string_length_mk (l : List Char) : (String.mk l).length = l.length := rfl

/-- The characters of a string built from a character list are that list. -/
theorem string_toList_mk (l : List Char) : (String.mk l).toList = l := rfl

/-- Claim C4 amended: the output filename is derived by deleting characters
that are not word characters (letters, digits, underscore), whitespace, or
hyphens, stripping edge whitespace, replacing each space character with its
own underscore (runs are not collapsed), truncating to 50 characters, and
appending the version tag; records with equal sanitized title and version
derive the same path (so the later write overwrites), the scenario record
with title `Valve Operation` and version `2.0` derives
`Valve_Operation_v2.0.docx`, and every sanitized title has at most 50
characters and no space character. -/
theorem C4_filename_derivation (r₁ r₂ : SiemensSOP)
    (ht : safe_title r₁.title = safe_title r₂.title) (hv : r₁.version = r₂.version) :
    output_filepath r₁ = output_filepath r₂ ∧
    docx_filename "Valve Operation" "2.0" = "Valve_Operation_v2.0.docx" ∧
    (∀ t : String, (safe_title t).length ≤ 50 ∧ ∀ c ∈ (safe_title t).toList, c ≠ ' ') := by
  refine ⟨by simp [output_filepath, docx_filename, ht, hv], by decide, ?_⟩
  intro t
  constructor
  · show (String.mk ((replaceSpaces (pyStrip (strip_nonword t))).toList.take 50)).length ≤ 50
    rw [string_length_mk]
    exact List.length_take_le 50 _
  · intro c hc
    have hc2 : c ∈ (replaceSpaces (pyStrip (strip_nonword t))).toList.take 50 := hc
    have hc3 := List.mem_of_mem_take hc2
    simp only [replaceSpaces, string_toList_mk, List.mem_map] at hc3
    obtain ⟨a, _, ha⟩ := hc3
    subst ha
    by_cases h : a = ' ' <;> simp [h]

/-- Witness for C4 amended at the end-to-end scenario record. -/
theorem C4_filename_derivation_w :
    docx_filename "Valve Operation" "2.0" = "Valve_Operation_v2.0.docx" ∧
    (safe_title "Valve Operation").length ≤ 50 := by
  have h := C4_filename_derivation
    ⟨"Valve Operation", "SOP-2024-001", "2.0", "Manufacturing", ["Wear gloves"], [],
      ["Open valve.", "Close valve."], 8⟩
    ⟨"Valve Operation", "SOP-2024-001", "2.0", "Manufacturing", ["Wear gloves"], [],
      ["Open valve.", "Close valve."], 8⟩ rfl rfl
  exact ⟨h.2.1, (h.2.2 "Valve Operation").1⟩

/-- Counterexample to C5: for the input `doc.xyz`, whose declared format is
neither plain text nor the paginated format, `read_file` does not fail with
an unsupported-format error — it takes the plain-text branch and returns
whatever the text read produces. -/
theorem C5_counterexample :
    read_file "doc.xyz" [] (Except.ok "hello") = Except.ok "hello" ∧
    read_file "doc.xyz" [] (Except.ok "hello") ≠ Except.error ReadError.unsupportedFormat := by
  decide

/-- Claim C5 amended: `read_file` dispatches solely on the lowercased path
suffix; every input whose suffix is not `.pdf` is read as plain text (the
result is exactly the text-read outcome), and no unsupported-format error
exists in the code. -/
theorem C5_no_format_rejection (file_path : String) (pdfPages : List (Option String))
    (textRead : Except ReadError String)
    (hsuf : pyLower (path_suffix file_path) ≠ ".pdf") :
    read_file file_path pdfPages textRead = textRead := by
  simp [read_file, hsuf]

/-- Witness for C5 amended at the input `doc.xyz`. -/
theorem C5_no_format_rejection_w :
    read_file "doc.xyz" [some "ignored"] (Except.ok "plain text") = Except.ok "plain text" :=
  C5_no_format_rejection "doc.xyz" [some "ignored"] (Except.ok "plain text") (by decide)

/-- Claim C6: for every input whose suffix lowercases to `.pdf`, `read_file`
succeeds with the per-page texts joined by single newlines, a page yielding
no extractable text contributing the empty string at its position; a bad
page never fails the read. -/
theorem C6_pdf_pages_joined (file_path : String) (pdfPages : List (Option String))
    (textRead : Except ReadError String)
    (hsuf : pyLower (path_suffix file_path) = ".pdf") :
    read_file file_path pdfPages textRead
      = Except.ok (String.intercalate "\n" (pdfPages.map (fun pg => pg.getD ""))) ∧
    (∀ before after, pdfPages = before ++ none :: after →
      read_file file_path pdfPages textRead
        = Except.ok (String.intercalate "\n"
            (before.map (fun pg => pg.getD "") ++ "" :: after.map (fun pg => pg.getD "")))) := by
  constructor
  · simp [read_file, hsuf]
  · rintro before after rfl
    simp [read_file, hsuf]

/-- Witness for C6: a three-page document whose middle page yields no text
reads as the other pages joined with an empty middle segment. -/
theorem C6_pdf_pages_joined_w :
    read_file "scan.PDF" [some "page one", none, some "page three"]
      (Except.error ReadError.decodeError) = Except.ok "page one\n\npage three" := by
  have h := C6_pdf_pages_joined "scan.PDF" [some "page one", none, some "page three"]
    (Except.error ReadError.decodeError) (by decide)
  exact h.1.trans (by decide)

/-- Claim C7: with no usable credential, `extract_sop` fails with the
missing-credential extraction error, and its result does not depend on the
extraction capability — no network interaction is attempted.  The same holds
for the Extract & Migrate click handler of the app, which checks the key
before invoking `extract_sop`. -/
theorem C7_credential_precondition (text : String)
    (cap₁ cap₂ : String → Except String SOPCandidate)
    (apiKey : String) (hk : usable_api_key apiKey = false) :
    extract_sop none text cap₁ = Except.error ExtractionError.missingCredential ∧
    extract_sop none text cap₁ = extract_sop none text cap₂ ∧
    app_extract_click apiKey text cap₁ = Except.error ExtractionError.missingCredential ∧
    app_extract_click apiKey text cap₁ = app_extract_click apiKey text cap₂ := by
  refine ⟨rfl, rfl, ?_, ?_⟩ <;> simp [app_extract_click, hk]

/-- Witness for C7 at the placeholder key the app also rejects. -/
theorem C7_credential_precondition_w :
    app_extract_click "your-api-key-here" "some raw text"
      (fun _ => Except.ok ⟨"T", "SOP-2024-001", "2.0", "QA", [], [], [], 8⟩)
      = Except.error ExtractionError.missingCredential :=
  (C7_credential_precondition "some raw text"
    (fun _ => Except.ok ⟨"T", "SOP-2024-001", "2.0", "QA", [], [], [], 8⟩)
    (fun _ => Except.error "transport failure") "your-api-key-here" (by decide)).2.2.1

/-- Claim C8: the instruction sent to the extraction capability is the fixed
prompt template with exactly one substitution point (the template parses to
one variable, and neither literal part contains a brace), and the raw
document text is inserted there verbatim — the formatted instruction is the
literal head, the unmodified text, and the literal tail. -/
theorem C8_prompt_verbatim (text : String) :
    EXTRACTION_PROMPT = fstringOfParts promptParts ∧
    promptParts.countP (fun p => isVarPart p) = 1 ∧
    ¬ '{' ∈ promptHead.toList ∧ ¬ '}' ∈ promptHead.toList ∧
    ¬ '{' ∈ promptTail.toList ∧ ¬ '}' ∈ promptTail.toList ∧
    format_extraction_prompt text = promptHead ++ text ++ promptTail := by
  refine ⟨?_, by rfl, by decide, by decide, by decide, by decide, ?_⟩
  · simp [EXTRACTION_PROMPT, fstringOfParts, promptParts, String.append_assoc]
  · simp [format_extraction_prompt, formatParts, promptParts, String.append_assoc]

/-- Counterexample to C9: `SiemensSOP` declares no frozen configuration, so
pydantic field assignment succeeds and changes the field — a constructed
record is not immutable. -/
theorem C9_counterexample :
    sop_set_title ⟨"A", "SOP-2024-001", "2.0", "QA", [], [], [], 8⟩ "B"
      = Except.ok ⟨"B", "SOP-2024-001", "2.0", "QA", [], [], [], 8⟩ ∧
    ("B" : String) ≠ "A" := by
  decide

/-- Claim C9 amended: the record is mutable (pydantic default, no frozen
configuration — reassigning a field succeeds), but `generate_word_doc`
never mutates its input: the record coming out of a render is the record
that went in, and the rendered output is a pure function of it. -/
theorem C9_render_never_mutates (data : SiemensSOP) (v : String) :
    (render_step data).1 = data ∧
    (render_step data).2 = generate_word_doc data ∧
    sop_set_title data v = Except.ok { data with title := v } :=
  ⟨rfl, rfl, rfl⟩

/-- Counterexample to C10: the title `"-"` contains no word character, yet
sanitization keeps the hyphen, so the derived filename is `-_v2.0.docx`,
not the degenerate `_v2.0.docx` the claim states. -/
theorem C10_counterexample :
    (∀ c ∈ ("-" : String).toList, pyIsWordChar c = false) ∧
    docx_filename "-" "2.0" = "-_v2.0.docx" ∧
    docx_filename "-" "2.0" ≠ "_v2.0.docx" := by
  decide

/-- Claim C10 amended: for every record whose title sanitizes to the empty
string, the derived path is the degenerate `_v<version>.docx` inside the
fixed output directory; and for every record whatsoever the derived path
lies in that directory and ends in `.docx`. -/
theorem C10_degenerate_filename (data : SiemensSOP)
    (h : safe_title data.title = "") :
    output_filepath data = OUTPUT_DIR ++ "/" ++ ("_v" ++ data.version ++ ".docx") ∧
    (∀ r : SiemensSOP, ∃ stem, output_filepath r = OUTPUT_DIR ++ "/" ++ (stem ++ ".docx")) := by
  constructor
  · simp [output_filepath, docx_filename, h, String.append_assoc]
  · intro r
    exact ⟨safe_title r.title ++ "_v" ++ r.version,
      by simp [output_filepath, docx_filename, String.append_assoc]⟩

/-- Witness for C10 amended at a title of three exclamation marks, every
character of which the sanitization strips. -/
theorem C10_degenerate_filename_w :
    output_filepath ⟨"!!!", "SOP-2024-001", "2.0", "QA", [], [], [], 8⟩
      = "output_docs/_v2.0.docx" := by
  have h := C10_degenerate_filename
    ⟨"!!!", "SOP-2024-001", "2.0", "QA", [], [], [], 8⟩ (by decide)
  exact h.1.trans (by decide)
